import Mathlib

/-!
Verification of the break-reminder application's session timer, settings
store and activity monitor, as a shallow embedding of the Python source
(complete_integrated_app.py and standalone-break-reminder.py).

The Python keeps all state as attributes on one application object; here
that state is an explicit record AppState. The runtime flag is_break of
the source is represented as (phase other than Working), and the break
type chosen at a work completion is recorded in the phase so that the
implied duration of the current phase is expressible. Tkinter StringVar
inputs are modelled by VarInput (empty string, non-numeric text, or a
number), matching the source's int() parsing with try/except fallbacks.
-/

namespace BreakReminder

/-- Timer phase: the source encodes Working as is_break = False, and a
break as is_break = True together with the break type chosen at the
transition. -/
inductive Phase where
  | Working
  | ShortBreak
  | LongBreak
deriving DecidableEq, Repr

/-- The persisted configuration record (the thirteen keys written by
save_config in complete_integrated_app.py). -/
structure Settings where
  work_minutes : Nat
  break_minutes : Nat
  long_break_minutes : Nat
  sessions_until_long_break : Nat
  sound_enabled : Bool
  minimize_to_tray : Bool
  auto_start_break : Bool
  auto_start_work : Bool
  auto_start_on_launch : Bool
  auto_restart_on_skip : Bool
  activity_detection_enabled : Bool
  inactivity_timeout : Nat
  pause_during_breaks : Bool
deriving DecidableEq, Repr

/-- The default_config dictionary of load_config. -/
def default_config : Settings where
  work_minutes := 25
  break_minutes := 5
  long_break_minutes := 15
  sessions_until_long_break := 4
  sound_enabled := true
  minimize_to_tray := true
  auto_start_break := true
  auto_start_work := false
  auto_start_on_launch := true
  auto_restart_on_skip := true
  activity_detection_enabled := true
  inactivity_timeout := 60
  pause_during_breaks := false

/-- A decoded JSON configuration in which any key may be absent
(config.get(key, value) supplies the default for an absent key). -/
structure StoredConfig where
  work_minutes : Option Nat
  break_minutes : Option Nat
  long_break_minutes : Option Nat
  sessions_until_long_break : Option Nat
  sound_enabled : Option Bool
  minimize_to_tray : Option Bool
  auto_start_break : Option Bool
  auto_start_work : Option Bool
  auto_start_on_launch : Option Bool
  auto_restart_on_skip : Option Bool
  activity_detection_enabled : Option Bool
  inactivity_timeout : Option Nat
  pause_during_breaks : Option Bool
deriving DecidableEq, Repr

/-- Outcome of reading the configuration file: the file may be absent
(os.path.exists false), json.load may raise, or a record is decoded. -/
inductive ReadResult where
  | missingFile
  | decodeError
  | ok (c : StoredConfig)
deriving DecidableEq, Repr

/-- load_config of complete_integrated_app.py: per-key defaults when the
file decodes, all defaults when the file is absent or undecodable. -/
def load_config : ReadResult → Settings
  | ReadResult.missingFile => default_config
  | ReadResult.decodeError => default_config
  | ReadResult.ok c =>
      { work_minutes := c.work_minutes.getD default_config.work_minutes
        break_minutes := c.break_minutes.getD default_config.break_minutes
        long_break_minutes := c.long_break_minutes.getD default_config.long_break_minutes
        sessions_until_long_break :=
          c.sessions_until_long_break.getD default_config.sessions_until_long_break
        sound_enabled := c.sound_enabled.getD default_config.sound_enabled
        minimize_to_tray := c.minimize_to_tray.getD default_config.minimize_to_tray
        auto_start_break := c.auto_start_break.getD default_config.auto_start_break
        auto_start_work := c.auto_start_work.getD default_config.auto_start_work
        auto_start_on_launch := c.auto_start_on_launch.getD default_config.auto_start_on_launch
        auto_restart_on_skip := c.auto_restart_on_skip.getD default_config.auto_restart_on_skip
        activity_detection_enabled :=
          c.activity_detection_enabled.getD default_config.activity_detection_enabled
        inactivity_timeout := c.inactivity_timeout.getD default_config.inactivity_timeout
        pause_during_breaks := c.pause_during_breaks.getD default_config.pause_during_breaks }

/-- save_config of complete_integrated_app.py: every key is written. -/
def save_config (s : Settings) : StoredConfig where
  work_minutes := some s.work_minutes
  break_minutes := some s.break_minutes
  long_break_minutes := some s.long_break_minutes
  sessions_until_long_break := some s.sessions_until_long_break
  sound_enabled := some s.sound_enabled
  minimize_to_tray := some s.minimize_to_tray
  auto_start_break := some s.auto_start_break
  auto_start_work := some s.auto_start_work
  auto_start_on_launch := some s.auto_start_on_launch
  auto_restart_on_skip := some s.auto_restart_on_skip
  activity_detection_enabled := some s.activity_detection_enabled
  inactivity_timeout := some s.inactivity_timeout
  pause_during_breaks := some s.pause_during_breaks

/-- Contents of a tkinter numeric entry as the source parses it:
empty string, non-numeric text (int() raises ValueError), or a number. -/
inductive VarInput where
  | empty
  | invalid
  | num (n : Nat)
deriving DecidableEq, Repr

/-- The pattern used by reset_timer, on_timer_complete and skip_break:
try: x = int(v.get()) if v.get() else cur; except: keep cur. -/
def read_var (v : VarInput) (cur : Nat) : Nat :=
  match v with
  | VarInput.empty => cur
  | VarInput.invalid => cur
  | VarInput.num n => n

/-- The pattern used by save_settings: int(v.get()) if v.get() else d,
inside one try block, so a non-numeric entry raises (none). -/
def parse_or_default (v : VarInput) (d : Nat) : Option Nat :=
  match v with
  | VarInput.empty => some d
  | VarInput.invalid => none
  | VarInput.num n => some n

/-- The tkinter variables the timer operations read (work_var, break_var,
long_break_var, sessions_var, timeout_var and the checkbox variables). -/
structure Vars where
  work_v : VarInput
  break_v : VarInput
  long_break_v : VarInput
  sessions_v : VarInput
  timeout_v : VarInput
  sound_b : Bool
  auto_break_b : Bool
  auto_work_b : Bool
  auto_launch_b : Bool
  auto_skip_b : Bool
  activity_b : Bool
  pause_breaks_b : Bool
  tray_b : Bool
deriving DecidableEq, Repr

/-- The attributes of BreakReminderApp that the timer logic reads and
writes: the thirteen configuration attributes plus the timer state. -/
structure AppState where
  work_minutes : Nat
  break_minutes : Nat
  long_break_minutes : Nat
  sessions_until_long_break : Nat
  sound_enabled : Bool
  minimize_to_tray : Bool
  auto_start_break : Bool
  auto_start_work : Bool
  auto_start_on_launch : Bool
  auto_restart_on_skip : Bool
  activity_detection_enabled : Bool
  inactivity_timeout : Nat
  pause_during_breaks : Bool
  is_running : Bool
  phase : Phase
  is_paused : Bool
  pause_reason : String
  session_count : Nat
  time_left : Nat
  break_window : Bool
deriving DecidableEq, Repr

/-- The source's is_break flag, as a function of the phase. -/
def AppState.is_break (st : AppState) : Bool :=
  decide (st.phase ≠ Phase.Working)

/-- State set up by the constructor of BreakReminderApp after load_config:
not running, Working, not paused, session_count 0 (set by load_config),
time_left = work_minutes * 60, no break window. -/
def init_state (s : Settings) : AppState where
  work_minutes := s.work_minutes
  break_minutes := s.break_minutes
  long_break_minutes := s.long_break_minutes
  sessions_until_long_break := s.sessions_until_long_break
  sound_enabled := s.sound_enabled
  minimize_to_tray := s.minimize_to_tray
  auto_start_break := s.auto_start_break
  auto_start_work := s.auto_start_work
  auto_start_on_launch := s.auto_start_on_launch
  auto_restart_on_skip := s.auto_restart_on_skip
  activity_detection_enabled := s.activity_detection_enabled
  inactivity_timeout := s.inactivity_timeout
  pause_during_breaks := s.pause_during_breaks
  is_running := false
  phase := Phase.Working
  is_paused := false
  pause_reason := ""
  session_count := 0
  time_left := s.work_minutes * 60
  break_window := false

/-- start_timer: sets is_running = True (UI updates and the spawning of
the timer thread are outside the state). -/
def start_timer (st : AppState) : AppState :=
  { st with is_running := true }

/-- stop_timer: sets is_running = False. -/
def stop_timer (st : AppState) : AppState :=
  { st with is_running := false }

/-- reset_timer: stops, leaves break state, unpauses, zeroes the session
count, re-reads work_minutes from work_var (kept on empty or invalid
input), resets time_left and closes any break window. -/
def reset_timer (v : Vars) (st : AppState) : AppState :=
  let w := read_var v.work_v st.work_minutes
  { st with
    is_running := false
    phase := Phase.Working
    is_paused := false
    session_count := 0
    work_minutes := w
    time_left := w * 60
    break_window := false }

/-- The should_pause condition computed at the top of each run_timer
iteration; avail stands for ACTIVITY_DETECTION_AVAILABLE and active for
activity_monitor.is_active. -/
def should_pause (avail active : Bool) (st : AppState) : Bool :=
  st.activity_detection_enabled && avail && !active &&
    (! st.is_break || st.pause_during_breaks)

/-- One iteration of the run_timer loop of complete_integrated_app.py,
guard included: while is_running and time_left > 0, compute should_pause;
if not should_pause or not is_paused, clear a stale pause and decrement
unless paused; else set the pause and leave time_left alone. -/
def run_timer_tick (avail active : Bool) (st : AppState) : AppState :=
  if st.is_running && decide (0 < st.time_left) then
    if !(should_pause avail active st) || !st.is_paused then
      let st1 :=
        if st.is_paused && !(should_pause avail active st) then
          { st with is_paused := false, pause_reason := "" }
        else st
      if !st1.is_paused then { st1 with time_left := st1.time_left - 1 } else st1
    else
      if !st.is_paused then
        { st with is_paused := true, pause_reason := "Away from computer" }
      else st
  else st

/-- on_timer_complete of complete_integrated_app.py. In the break branch
work_minutes is re-read from work_var and stored; in the work branch the
break duration is a local variable read from break_var or long_break_var
and the stored break settings are not modified. -/
def on_timer_complete (v : Vars) (st : AppState) : AppState :=
  if st.is_break then
    let st1 := { st with break_window := false }
    let w := read_var v.work_v st1.work_minutes
    let st2 := { st1 with phase := Phase.Working, work_minutes := w, time_left := w * 60 }
    if v.auto_work_b then { st2 with is_running := true } else { st2 with is_running := false }
  else
    let c := st.session_count + 1
    if st.sessions_until_long_break ≤ c then
      let bm := read_var v.long_break_v st.long_break_minutes
      let st2 := { st with
        session_count := 0
        phase := Phase.LongBreak
        time_left := bm * 60
        break_window := true }
      if v.auto_break_b then { st2 with is_running := true } else { st2 with is_running := false }
    else
      let bm := read_var v.break_v st.break_minutes
      let st2 := { st with
        session_count := c
        phase := Phase.ShortBreak
        time_left := bm * 60
        break_window := true }
      if v.auto_break_b then { st2 with is_running := true } else { st2 with is_running := false }

/-- skip_break of complete_integrated_app.py: closes the break window,
stops, leaves break state, unpauses, re-reads work_minutes, resets
time_left and restarts only when the auto-skip checkbox is set. -/
def skip_break (v : Vars) (st : AppState) : AppState :=
  let st1 := { st with
    break_window := false
    is_running := false
    phase := Phase.Working
    is_paused := false }
  let w := read_var v.work_v st1.work_minutes
  let st2 := { st1 with work_minutes := w, time_left := w * 60 }
  if v.auto_skip_b then { st2 with is_running := true } else st2

/-- save_settings of complete_integrated_app.py: the five numeric fields
are parsed and assigned one after another inside a single try block, so
the first non-numeric entry raises ValueError, which is caught after the
earlier assignments have already happened; on success the boolean
settings are copied from the checkboxes and the record is persisted.
The Bool result tells whether the save completed. -/
def save_settings (v : Vars) (st : AppState) : AppState × Bool :=
  match parse_or_default v.work_v 25 with
  | none => (st, false)
  | some w =>
    let st1 := { st with work_minutes := w }
    match parse_or_default v.break_v 5 with
    | none => (st1, false)
    | some b =>
      let st2 := { st1 with break_minutes := b }
      match parse_or_default v.long_break_v 15 with
      | none => (st2, false)
      | some lb =>
        let st3 := { st2 with long_break_minutes := lb }
        match parse_or_default v.sessions_v 4 with
        | none => (st3, false)
        | some k =>
          let st4 := { st3 with sessions_until_long_break := k }
          match parse_or_default v.timeout_v 60 with
          | none => (st4, false)
          | some t =>
            let st5 := { st4 with
              inactivity_timeout := t
              sound_enabled := v.sound_b
              auto_start_break := v.auto_break_b
              auto_start_work := v.auto_work_b
              auto_start_on_launch := v.auto_launch_b
              auto_restart_on_skip := v.auto_skip_b
              activity_detection_enabled := v.activity_b
              pause_during_breaks := v.pause_breaks_b
              minimize_to_tray := v.tray_b }
            (st5, true)

/-- The duration implied by the current phase and the stored settings. -/
def phase_duration (st : AppState) : Nat :=
  match st.phase with
  | Phase.Working => st.work_minutes * 60
  | Phase.ShortBreak => st.break_minutes * 60
  | Phase.LongBreak => st.long_break_minutes * 60

/-- A full work cycle seen from the session counter: the work countdown
expires (entering a break) and then the break countdown expires
(returning to Working), n times. -/
def cycleN (v : Vars) (st : AppState) : Nat → AppState
  | 0 => st
  | n + 1 => on_timer_complete v (on_timer_complete v (cycleN v st n))

/-- Signals delivered to the activity callback. -/
inductive Signal where
  | resumed
  | paused
deriving DecidableEq, Repr

/-- State of ActivityMonitor: last_activity timestamp, is_active flag and
the configured timeout, with time in whole seconds. -/
structure AMState where
  last_activity : Nat
  is_active : Bool
  timeout : Nat
deriving DecidableEq, Repr

/-- ActivityMonitor.on_activity: records the event time, flips is_active
to true, and fires the resumed callback only if it was inactive. -/
def on_activity (now : Nat) (m : AMState) : AMState × Option Signal :=
  let was_inactive := ! m.is_active
  let m2 := { m with last_activity := now, is_active := true }
  (m2, if was_inactive then some Signal.resumed else none)

/-- One iteration of ActivityMonitor.monitor_activity: if active and the
time since the last activity exceeds the timeout, flip to inactive and
fire the paused callback; otherwise do nothing. -/
def monitor_activity_check (now : Nat) (m : AMState) : AMState × Option Signal :=
  if m.is_active && decide (m.timeout < now - m.last_activity) then
    ({ m with is_active := false }, some Signal.paused)
  else (m, none)

/-- on_activity_change of BreakReminderApp: the paused signal sets the
pause, the resumed signal clears it when set. -/
def on_activity_change (sig : Signal) (st : AppState) : AppState :=
  match sig with
  | Signal.paused => { st with is_paused := true, pause_reason := "Away from computer" }
  | Signal.resumed =>
      if st.is_paused then { st with is_paused := false, pause_reason := "" } else st

/-- The state of standalone-break-reminder.py relevant to skip_break
(that variant has no pause flag; idleness only skips decrements). -/
structure StandaloneState where
  work_minutes : Nat
  is_running : Bool
  is_break : Bool
  time_left : Nat
  break_window : Bool
deriving DecidableEq, Repr

/-- skip_break of standalone-break-reminder.py: closes the break window,
clears is_break, re-reads work_minutes, resets time_left and always
calls start_timer (is_running = True) unconditionally. -/
def standalone_skip_break (work_v : VarInput) (st : StandaloneState) : StandaloneState :=
  let st1 := { st with break_window := false, is_break := false }
  let w := read_var work_v st1.work_minutes
  { st1 with work_minutes := w, time_left := w * 60, is_running := true }

/-- Entry contents matching a freshly loaded default configuration: the
numeric entries untouched (empty reads keep the current values) and the
checkboxes at their default positions. -/
def vars_default : Vars where
  work_v := VarInput.empty
  break_v := VarInput.empty
  long_break_v := VarInput.empty
  sessions_v := VarInput.empty
  timeout_v := VarInput.empty
  sound_b := true
  auto_break_b := true
  auto_work_b := false
  auto_launch_b := true
  auto_skip_b := true
  activity_b := true
  pause_breaks_b := false
  tray_b := true

/-- Entries that shrink the work duration to one minute and keep every
other value at its default. -/
def shrink_vars : Vars :=
  { vars_default with
    work_v := VarInput.num 1
    break_v := VarInput.num 5
    long_break_v := VarInput.num 15
    sessions_v := VarInput.num 4
    timeout_v := VarInput.num 60 }

/-- Entries with a valid new work duration followed by non-numeric text
in the break entry. -/
def bad_vars : Vars :=
  { vars_default with work_v := VarInput.num 30, break_v := VarInput.invalid }

/-- A running Working-phase state whose user has been inactive long
enough for the monitor to report inactive, but whose pause flag is clear
(as after reset_timer or skip_break, or after a break taken with
pause_during_breaks off cleared the pause). -/
def unpaused_inactive_state : AppState :=
  { init_state default_config with is_running := true, time_left := 10 }

/-- A running short-break state with its break window open. -/
def break_state : AppState :=
  { init_state default_config with
    phase := Phase.ShortBreak
    is_running := true
    time_left := 300
    break_window := true }

/-- A running Working-phase state in mid-countdown. -/
def working_state : AppState :=
  { init_state default_config with is_running := true, time_left := 777 }

/-- A running Working-phase state of the standalone variant. -/
def sa_working_state : StandaloneState where
  work_minutes := 25
  is_running := true
  is_break := false
  time_left := 777
  break_window := false

/-- Claim C1: the claim says a tick taken while should_pause holds sets
paused = true with the inactivity pause reason and does not decrement
remaining_seconds. The code disagrees: when should_pause holds but the
pause flag is not yet set, the tick takes the decrementing branch, so at
this reachable state (running, Working, inactive monitor, activity
detection enabled, pause flag clear) the tick decrements time_left from
10 to 9 and leaves the pause flag clear. The branch of run_timer that
would set the pause is unreachable, since it is guarded by the pause
flag already being set; pausing only ever happens through the activity
callback, which a reset, a skip, or an unpaused break can be out of sync
with. -/
theorem c1_tick_decrements_despite_should_pause :
    should_pause true false unpaused_inactive_state = true ∧
    unpaused_inactive_state.is_paused = false ∧
    unpaused_inactive_state.time_left = 10 ∧
    (run_timer_tick true false unpaused_inactive_state).time_left = 9 ∧
    (run_timer_tick true false unpaused_inactive_state).is_paused = false := by
  decide

/-- Claim C3: reset_timer yields running = false, paused = false, phase
Working, session_count 0, time_left equal to 60 times the re-read work
minutes (kept at the current value on empty or non-numeric entry), and
closes any open break window. -/
theorem c3_reset_timer_spec (v : Vars) (st : AppState) :
    (reset_timer v st).is_running = false ∧
    (reset_timer v st).is_paused = false ∧
    (reset_timer v st).phase = Phase.Working ∧
    (reset_timer v st).session_count = 0 ∧
    (reset_timer v st).work_minutes = read_var v.work_v st.work_minutes ∧
    (reset_timer v st).time_left = (reset_timer v st).work_minutes * 60 ∧
    (reset_timer v st).break_window = false := by
  simp [reset_timer]

/-- Claim C4: skip_break during a short or long break yields phase
Working and time_left equal to 60 times the (re-read) work minutes
within the single call, with running true exactly when the auto-restart
checkbox is set and false otherwise. -/
theorem c4_skip_break_during_break (v : Vars) (st : AppState)
    (hph : st.phase = Phase.ShortBreak ∨ st.phase = Phase.LongBreak) :
    (skip_break v st).phase = Phase.Working ∧
    (skip_break v st).time_left = (skip_break v st).work_minutes * 60 ∧
    (skip_break v st).is_running = v.auto_skip_b ∧
    (skip_break v st).is_paused = false := by
  cases hb : v.auto_skip_b <;> simp [skip_break, hb]

/-- Witness for claim C4 at a concrete short-break state. -/
theorem c4_witness :
    (skip_break vars_default break_state).phase = Phase.Working ∧
    (skip_break vars_default break_state).time_left
      = (skip_break vars_default break_state).work_minutes * 60 ∧
    (skip_break vars_default break_state).is_running = vars_default.auto_skip_b ∧
    (skip_break vars_default break_state).is_paused = false :=
  c4_skip_break_during_break vars_default break_state (Or.inl rfl)

/-- Claim C5: load_config is total; a missing file or undecodable
content yields exactly the documented default record, and a decoded
record is completed field by field with the documented default for each
absent key. -/
theorem c5_load_config_defaults :
    load_config ReadResult.missingFile
      = { work_minutes := 25
          break_minutes := 5
          long_break_minutes := 15
          sessions_until_long_break := 4
          sound_enabled := true
          minimize_to_tray := true
          auto_start_break := true
          auto_start_work := false
          auto_start_on_launch := true
          auto_restart_on_skip := true
          activity_detection_enabled := true
          inactivity_timeout := 60
          pause_during_breaks := false } ∧
    load_config ReadResult.decodeError = default_config ∧
    ∀ c : StoredConfig,
      (load_config (ReadResult.ok c)).work_minutes = c.work_minutes.getD 25 ∧
      (load_config (ReadResult.ok c)).break_minutes = c.break_minutes.getD 5 ∧
      (load_config (ReadResult.ok c)).long_break_minutes = c.long_break_minutes.getD 15 ∧
      (load_config (ReadResult.ok c)).sessions_until_long_break
        = c.sessions_until_long_break.getD 4 ∧
      (load_config (ReadResult.ok c)).sound_enabled = c.sound_enabled.getD true ∧
      (load_config (ReadResult.ok c)).minimize_to_tray = c.minimize_to_tray.getD true ∧
      (load_config (ReadResult.ok c)).auto_start_break = c.auto_start_break.getD true ∧
      (load_config (ReadResult.ok c)).auto_start_work = c.auto_start_work.getD false ∧
      (load_config (ReadResult.ok c)).auto_start_on_launch
        = c.auto_start_on_launch.getD true ∧
      (load_config (ReadResult.ok c)).auto_restart_on_skip
        = c.auto_restart_on_skip.getD true ∧
      (load_config (ReadResult.ok c)).activity_detection_enabled
        = c.activity_detection_enabled.getD true ∧
      (load_config (ReadResult.ok c)).inactivity_timeout = c.inactivity_timeout.getD 60 ∧
      (load_config (ReadResult.ok c)).pause_during_breaks
        = c.pause_during_breaks.getD false := by
  refine ⟨rfl, rfl, fun c => ?_⟩
  simp [load_config, default_config]

/-- Claim C6: writing a settings record with save_config and reading it
back with load_config returns an equal record. -/
theorem c6_save_load_round_trip (s : Settings) :
    load_config (ReadResult.ok (save_config s)) = s := by
  cases s
  rfl

/-- Claim C9: activity signals are edge-triggered. An input event always
leaves the monitor active with the event time recorded, and emits the
resumed signal exactly when the monitor was inactive (no signal when it
was already active). The periodic check emits the paused signal exactly
when the monitor is active and the time since the last activity exceeds
the timeout, and emits no signal exactly when it leaves the state
unchanged. -/
theorem c9_activity_edge_triggered (now : Nat) (m : AMState) :
    (on_activity now m).1.is_active = true ∧
    (on_activity now m).1.last_activity = now ∧
    ((on_activity now m).2 = some Signal.resumed ↔ m.is_active = false) ∧
    ((on_activity now m).2 = none ↔ m.is_active = true) ∧
    ((monitor_activity_check now m).2 = some Signal.paused ↔
      m.is_active = true ∧ m.timeout < now - m.last_activity) ∧
    ((monitor_activity_check now m).2 = none ↔ (monitor_activity_check now m).1 = m) := by
  obtain ⟨la, act, tmo⟩ := m
  cases act <;> by_cases hidle : tmo < now - la <;>
    simp [on_activity, monitor_activity_check, hidle, AMState.mk.injEq]

/-- Claim C10: skip_break called outside a break raises no error and is
not a no-op: in the integrated variant it resets time_left to 60 times
the re-read work minutes, stays in Working, clears the pause and runs
exactly when the auto-restart checkbox is set; the standalone variant
does the same reset but always restarts the timer unconditionally. -/
theorem c10_skip_break_during_working (v : Vars) (st : AppState) (sst : StandaloneState)
    (hph : st.phase = Phase.Working) (hsb : sst.is_break = false) :
    (skip_break v st).phase = Phase.Working ∧
    (skip_break v st).work_minutes = read_var v.work_v st.work_minutes ∧
    (skip_break v st).time_left = (skip_break v st).work_minutes * 60 ∧
    (skip_break v st).is_paused = false ∧
    (skip_break v st).is_running = v.auto_skip_b ∧
    (standalone_skip_break v.work_v sst).is_running = true ∧
    (standalone_skip_break v.work_v sst).time_left
      = (standalone_skip_break v.work_v sst).work_minutes * 60 ∧
    (standalone_skip_break v.work_v sst).is_break = false := by
  cases hb : v.auto_skip_b <;> simp [skip_break, standalone_skip_break, hb]

/-- Witness for claim C10 at concrete mid-countdown Working states of
both variants. -/
theorem c10_witness :
    (skip_break vars_default working_state).phase = Phase.Working ∧
    (skip_break vars_default working_state).work_minutes
      = read_var vars_default.work_v working_state.work_minutes ∧
    (skip_break vars_default working_state).time_left
      = (skip_break vars_default working_state).work_minutes * 60 ∧
    (skip_break vars_default working_state).is_paused = false ∧
    (skip_break vars_default working_state).is_running = vars_default.auto_skip_b ∧
    (standalone_skip_break vars_default.work_v sa_working_state).is_running = true ∧
    (standalone_skip_break vars_default.work_v sa_working_state).time_left
      = (standalone_skip_break vars_default.work_v sa_working_state).work_minutes * 60 ∧
    (standalone_skip_break vars_default.work_v sa_working_state).is_break = false :=
  c10_skip_break_during_working vars_default working_state sa_working_state rfl rfl

/-- Effect of on_timer_complete on the session counter when a work
countdown expires: increment, with a reset to zero on reaching the
long-break threshold, and the break type chosen accordingly. -/
theorem on_timer_complete_working (v : Vars) (st : AppState)
    (h : st.phase = Phase.Working) :
    (on_timer_complete v st).session_count
      = (if st.sessions_until_long_break ≤ st.session_count + 1 then 0
         else st.session_count + 1) ∧
    (on_timer_complete v st).phase
      = (if st.sessions_until_long_break ≤ st.session_count + 1 then Phase.LongBreak
         else Phase.ShortBreak) ∧
    (on_timer_complete v st).sessions_until_long_break = st.sessions_until_long_break := by
  have hb : st.is_break = false := by simp [AppState.is_break, h]
  by_cases hk : st.sessions_until_long_break ≤ st.session_count + 1 <;>
    cases hab : v.auto_break_b <;>
      simp [on_timer_complete, hb, hk, hab]

/-- Effect of on_timer_complete when a break countdown expires: back to
Working, session counter and long-break threshold untouched. -/
theorem on_timer_complete_break (v : Vars) (st : AppState)
    (h : st.phase ≠ Phase.Working) :
    (on_timer_complete v st).phase = Phase.Working ∧
    (on_timer_complete v st).session_count = st.session_count ∧
    (on_timer_complete v st).sessions_until_long_break = st.sessions_until_long_break := by
  have hb : st.is_break = true := by simp [AppState.is_break, h]
  cases haw : v.auto_work_b <;> simp [on_timer_complete, hb, haw]

/-- Arithmetic core of the session counter: increment with reset at the
threshold is the successor modulo the threshold. -/
theorem session_step_mod (n K : Nat) (hK : 2 ≤ K) :
    (if K ≤ n % K + 1 then 0 else n % K + 1) = (n + 1) % K := by
  have hr : n % K < K := Nat.mod_lt _ (by omega)
  have h1 : 1 % K = 1 := Nat.mod_eq_of_lt (by omega)
  have h2 : (n + 1) % K = (n % K + 1) % K := by
    rw [Nat.add_mod, h1]
  by_cases hc : K ≤ n % K + 1
  · have he : n % K + 1 = K := by omega
    rw [if_pos hc, h2, he, Nat.mod_self]
  · rw [if_neg hc, h2]
    exact (Nat.mod_eq_of_lt (by omega)).symm

/-- Reaching the long-break threshold is exactly divisibility of the
number of completed sessions by the threshold. -/
theorem session_threshold_iff (n K : Nat) (hK : 2 ≤ K) :
    (K ≤ n % K + 1) ↔ (n + 1) % K = 0 := by
  have h := session_step_mod n K hK
  have hr : n % K < K := Nat.mod_lt _ (by omega)
  by_cases hc : K ≤ n % K + 1
  · rw [← h, if_pos hc]
    simp [hc]
  · rw [← h, if_neg hc]
    constructor
    · intro hcontra
      exact absurd hcontra hc
    · intro hz
      omega

/-- Invariant of the work/break cycle: after n full cycles the phase is
back to Working, the session counter equals n modulo the threshold, and
the threshold is unchanged. -/
theorem cycleN_invariant (v : Vars) (st : AppState) (K : Nat)
    (h0 : st.phase = Phase.Working) (h1 : st.session_count = 0)
    (h2 : st.sessions_until_long_break = K) (hK : 2 ≤ K) :
    ∀ n, (cycleN v st n).phase = Phase.Working ∧
      (cycleN v st n).session_count = n % K ∧
      (cycleN v st n).sessions_until_long_break = K := by
  intro n
  induction n with
  | zero =>
    refine ⟨h0, ?_, h2⟩
    simp [cycleN, h1]
  | succ n ih =>
    obtain ⟨hp, hc, hk⟩ := ih
    obtain ⟨hc1, hp1, hk1⟩ := on_timer_complete_working v (cycleN v st n) hp
    have hp1ne : (on_timer_complete v (cycleN v st n)).phase ≠ Phase.Working := by
      rw [hp1]
      split <;> simp
    obtain ⟨hp2, hc2, hk2⟩ :=
      on_timer_complete_break v (on_timer_complete v (cycleN v st n)) hp1ne
    refine ⟨hp2, ?_, ?_⟩
    · show (on_timer_complete v (on_timer_complete v (cycleN v st n))).session_count
        = (n + 1) % K
      rw [hc2, hc1, hc, hk]
      exact session_step_mod n K hK
    · show (on_timer_complete v (on_timer_complete v (cycleN v st n))).sessions_until_long_break
        = K
      rw [hk2, hk1, hk]

/-- Claim C2: starting from session_count = 0 with threshold K at least
2, after n completed work/break cycles the session counter equals n mod
K (hence always lies in [0, K)), and the next work completion increments
it modulo K and enters LongBreak exactly when the completion number
n + 1 is a multiple of K, ShortBreak otherwise. -/
theorem c2_long_break_cadence (v : Vars) (st : AppState) (K n : Nat)
    (h0 : st.phase = Phase.Working) (h1 : st.session_count = 0)
    (h2 : st.sessions_until_long_break = K) (hK : 2 ≤ K) :
    (cycleN v st n).session_count = n % K ∧
    n % K < K ∧
    (on_timer_complete v (cycleN v st n)).session_count = (n + 1) % K ∧
    (on_timer_complete v (cycleN v st n)).phase
      = (if (n + 1) % K = 0 then Phase.LongBreak else Phase.ShortBreak) := by
  obtain ⟨hp, hc, hk⟩ := cycleN_invariant v st K h0 h1 h2 hK n
  obtain ⟨hc1, hp1, _⟩ := on_timer_complete_working v (cycleN v st n) hp
  have hr : n % K < K := Nat.mod_lt _ (by omega)
  refine ⟨hc, hr, ?_, ?_⟩
  · rw [hc1, hc, hk]
    exact session_step_mod n K hK
  · rw [hp1, hc, hk]
    by_cases hz : (n + 1) % K = 0
    · rw [if_pos ((session_threshold_iff n K hK).mpr hz), if_pos hz]
    · rw [if_neg (fun hcon => hz ((session_threshold_iff n K hK).mp hcon)), if_neg hz]

/-- Witness for claim C2: with the default threshold 4, after three
cycles the counter is 3 and the fourth work completion enters a long
break, resetting the counter to 0. -/
theorem c2_witness :
    (cycleN vars_default (init_state default_config) 3).session_count = 3 % 4 ∧
    3 % 4 < 4 ∧
    (on_timer_complete vars_default
        (cycleN vars_default (init_state default_config) 3)).session_count = (3 + 1) % 4 ∧
    (on_timer_complete vars_default
        (cycleN vars_default (init_state default_config) 3)).phase
      = (if (3 + 1) % 4 = 0 then Phase.LongBreak else Phase.ShortBreak) :=
  c2_long_break_cadence vars_default (init_state default_config) 4 3 rfl rfl rfl
    (by decide)

/-- The timer tick keeps the phase and the stored durations, and never
increases the remaining time. -/
theorem run_timer_tick_fields (avail active : Bool) (st : AppState) :
    (run_timer_tick avail active st).phase = st.phase ∧
    (run_timer_tick avail active st).work_minutes = st.work_minutes ∧
    (run_timer_tick avail active st).break_minutes = st.break_minutes ∧
    (run_timer_tick avail active st).long_break_minutes = st.long_break_minutes ∧
    (run_timer_tick avail active st).time_left ≤ st.time_left := by
  unfold run_timer_tick
  cases hr : (st.is_running && decide (0 < st.time_left)) <;>
    cases hsp : should_pause avail active st <;>
      cases hp : st.is_paused <;>
        simp [hr, hsp, hp]

/-- The implied phase duration depends only on the phase and the three
stored durations. -/
theorem phase_duration_congr (s t : AppState) (hp : s.phase = t.phase)
    (hw : s.work_minutes = t.work_minutes) (hb : s.break_minutes = t.break_minutes)
    (hl : s.long_break_minutes = t.long_break_minutes) :
    phase_duration s = phase_duration t := by
  unfold phase_duration
  rw [hp, hw, hb, hl]

/-- Counterexample to claim C7: the bound remaining_seconds at most the
phase duration holds at the freshly loaded default state, but saving
settings that shrink the work duration to one minute mid-phase leaves
time_left at 1500 while the new bound is 60. -/
theorem c7_counterexample :
    (init_state default_config).time_left
      ≤ phase_duration (init_state default_config) ∧
    ¬ ((save_settings shrink_vars (init_state default_config)).1.time_left
        ≤ phase_duration (save_settings shrink_vars (init_state default_config)).1) := by
  decide

/-- Claim C7 as amended: the bound remaining_seconds at most the phase
duration is preserved by the tick and by start, stop, reset, skip and
timer completion, provided the break-duration entries agree with the
stored settings; it is save_settings (excluded here, see the
counterexample) that can break the bound by shrinking a duration
mid-phase without touching time_left. -/
theorem c7_amended_invariant (avail active : Bool) (v : Vars) (st : AppState)
    (hInv : st.time_left ≤ phase_duration st)
    (hbv : read_var v.break_v st.break_minutes = st.break_minutes)
    (hlv : read_var v.long_break_v st.long_break_minutes = st.long_break_minutes) :
    (run_timer_tick avail active st).time_left
      ≤ phase_duration (run_timer_tick avail active st) ∧
    (start_timer st).time_left ≤ phase_duration (start_timer st) ∧
    (stop_timer st).time_left ≤ phase_duration (stop_timer st) ∧
    (reset_timer v st).time_left ≤ phase_duration (reset_timer v st) ∧
    (skip_break v st).time_left ≤ phase_duration (skip_break v st) ∧
    (on_timer_complete v st).time_left ≤ phase_duration (on_timer_complete v st) := by
  refine ⟨?_, ?_, ?_, ?_, ?_, ?_⟩
  · have hf := run_timer_tick_fields avail active st
    have hd := phase_duration_congr _ st hf.1 hf.2.1 hf.2.2.1 hf.2.2.2.1
    rw [hd]
    exact le_trans hf.2.2.2.2 hInv
  · exact hInv
  · exact hInv
  · simp [reset_timer, phase_duration]
  · cases hb : v.auto_skip_b <;> simp [skip_break, phase_duration, hb]
  · cases hib : st.is_break <;>
      cases haw : v.auto_work_b <;>
        cases hab : v.auto_break_b <;>
          by_cases hk : st.sessions_until_long_break ≤ st.session_count + 1 <;>
            simp [on_timer_complete, phase_duration, hib, haw, hab, hk, hbv, hlv]

/-- Witness for the amended claim C7 at the freshly loaded default
state. -/
theorem c7_witness :
    (run_timer_tick true true (init_state default_config)).time_left
      ≤ phase_duration (run_timer_tick true true (init_state default_config)) ∧
    (start_timer (init_state default_config)).time_left
      ≤ phase_duration (start_timer (init_state default_config)) ∧
    (stop_timer (init_state default_config)).time_left
      ≤ phase_duration (stop_timer (init_state default_config)) ∧
    (reset_timer vars_default (init_state default_config)).time_left
      ≤ phase_duration (reset_timer vars_default (init_state default_config)) ∧
    (skip_break vars_default (init_state default_config)).time_left
      ≤ phase_duration (skip_break vars_default (init_state default_config)) ∧
    (on_timer_complete vars_default (init_state default_config)).time_left
      ≤ phase_duration (on_timer_complete vars_default (init_state default_config)) :=
  c7_amended_invariant true true vars_default (init_state default_config)
    (by decide) rfl rfl

/-- Counterexample to claim C8: a save with a valid new work entry (30)
followed by non-numeric break text fails, yet it has already overwritten
work_minutes (25 becomes 30), so the settings state is not unchanged by
the failed save. -/
theorem c8_counterexample :
    (save_settings bad_vars (init_state default_config)).2 = false ∧
    (init_state default_config).work_minutes = 25 ∧
    (save_settings bad_vars (init_state default_config)).1.work_minutes = 30 := by
  decide

/-- Claim C8 as amended: a save that hits a non-numeric entry is caught
locally (save_settings is total and reports the failure) and never
touches the timer state (run flag, phase, pause, counter, remaining
time, break window); but only the fields from the failing entry onward
are retained — the inactivity timeout and all boolean settings are
unchanged on failure, while numeric fields parsed before the failing
entry keep their newly parsed values (see the counterexample). -/
theorem c8_amended_failed_save (v : Vars) (st : AppState)
    (h : (save_settings v st).2 = false) :
    (save_settings v st).1.is_running = st.is_running ∧
    (save_settings v st).1.phase = st.phase ∧
    (save_settings v st).1.is_paused = st.is_paused ∧
    (save_settings v st).1.session_count = st.session_count ∧
    (save_settings v st).1.time_left = st.time_left ∧
    (save_settings v st).1.break_window = st.break_window ∧
    (save_settings v st).1.inactivity_timeout = st.inactivity_timeout ∧
    (save_settings v st).1.sound_enabled = st.sound_enabled ∧
    (save_settings v st).1.minimize_to_tray = st.minimize_to_tray ∧
    (save_settings v st).1.auto_start_break = st.auto_start_break ∧
    (save_settings v st).1.auto_start_work = st.auto_start_work ∧
    (save_settings v st).1.auto_start_on_launch = st.auto_start_on_launch ∧
    (save_settings v st).1.auto_restart_on_skip = st.auto_restart_on_skip ∧
    (save_settings v st).1.activity_detection_enabled = st.activity_detection_enabled ∧
    (save_settings v st).1.pause_during_breaks = st.pause_during_breaks := by
  obtain ⟨wv, bv, lv, sv, tv, sb, abb, awb, alb, askb, actb, pbb, trb⟩ := v
  cases wv <;> cases bv <;> cases lv <;> cases sv <;> cases tv <;>
    simp_all [save_settings, parse_or_default]

/-- Witness for the amended claim C8 at the concrete failing save. -/
theorem c8_witness :
    (save_settings bad_vars (init_state default_config)).1.is_running
      = (init_state default_config).is_running ∧
    (save_settings bad_vars (init_state default_config)).1.phase
      = (init_state default_config).phase ∧
    (save_settings bad_vars (init_state default_config)).1.is_paused
      = (init_state default_config).is_paused ∧
    (save_settings bad_vars (init_state default_config)).1.session_count
      = (init_state default_config).session_count ∧
    (save_settings bad_vars (init_state default_config)).1.time_left
      = (init_state default_config).time_left ∧
    (save_settings bad_vars (init_state default_config)).1.break_window
      = (init_state default_config).break_window ∧
    (save_settings bad_vars (init_state default_config)).1.inactivity_timeout
      = (init_state default_config).inactivity_timeout ∧
    (save_settings bad_vars (init_state default_config)).1.sound_enabled
      = (init_state default_config).sound_enabled ∧
    (save_settings bad_vars (init_state default_config)).1.minimize_to_tray
      = (init_state default_config).minimize_to_tray ∧
    (save_settings bad_vars (init_state default_config)).1.auto_start_break
      = (init_state default_config).auto_start_break ∧
    (save_settings bad_vars (init_state default_config)).1.auto_start_work
      = (init_state default_config).auto_start_work ∧
    (save_settings bad_vars (init_state default_config)).1.auto_start_on_launch
      = (init_state default_config).auto_start_on_launch ∧
    (save_settings bad_vars (init_state default_config)).1.auto_restart_on_skip
      = (init_state default_config).auto_restart_on_skip ∧
    (save_settings bad_vars (init_state default_config)).1.activity_detection_enabled
      = (init_state default_config).activity_detection_enabled ∧
    (save_settings bad_vars (init_state default_config)).1.pause_during_breaks
      = (init_state default_config).pause_during_breaks :=
  c8_amended_failed_save bad_vars (init_state default_config) (by decide)

end BreakReminder
